import Mathlib

/-!
Verification of the Hyundai `CarInterface` adaptation layer
(`selfdrive/car/hyundai/interface.py`): shallow embedding of the
parameter-construction function `get_params` and the per-cycle `update`
decision logic, with theorems settling the spec's claims about them.

Numeric signals are modelled as exact rationals (`Rat`); Python truthiness
of integer timers is modelled as `≠ 0`.  External collaborators (the
key-value parameter store, the base-class standard defaults, the bus
parsers and the car-controller signals) are modelled as explicit inputs,
since they are not part of the repository slice.
-/

/-- Per-bus sets of observed CAN message identifiers, from the startup
probe (`fingerprint[0]`, `fingerprint[1]`, `fingerprint[2]` in the source). -/
structure Fingerprint where
  bus0 : List Nat
  bus1 : List Nat
  bus2 : List Nat
deriving DecidableEq

/-- Lateral-control tuning variant: the source populates exactly one of the
`pid`, `indi` or `lqr` branches of `ret.lateralTuning`. -/
inductive LateralTuning where
  | pid (kpBP kpV kiBP kiV kdBP kdV : List Rat) (kf : Rat) (newKfTuned : Bool)
  | indi (innerLoopGainBP innerLoopGainV outerLoopGainBP outerLoopGainV
      timeConstantBP timeConstantV actuatorEffectivenessBP actuatorEffectivenessV : List Rat)
  | lqr (scale ki : Rat) (a b c k l : List Rat) (dcGain : Rat)
deriving DecidableEq

/-- Modelled from the spec: the external key-value `ParameterStore`
(`common.params.Params`), with the keys `get_params` reads already decoded
from their decimal strings to exact rationals (the per-key scale factors of
§6 are applied inside `get_params`, as in the source). -/
structure ParamsStore where
  pidKpRaw : Rat
  pidKiRaw : Rat
  pidKdRaw : Rat
  pidKfRaw : Rat
  innerLoopGainRaw : Rat
  outerLoopGainRaw : Rat
  timeConstantRaw : Rat
  actuatorEffectivenessRaw : Rat
  scaleRaw : Rat
  lqrKiRaw : Rat
  dcGainRaw : Rat
  steerMaxvRaw : Rat
  tireStiffnessFactorRaw : Rat
  steerActuatorDelayRaw : Rat
  steerRateCostRaw : Rat
  steerLimitTimerRaw : Rat
  lateralControlMethod : Int
  shaneFeedForward : Bool
  mdpsHarness : Bool
deriving DecidableEq

/-- Modelled from the spec: the defaults supplied by the external base-class
collaborator `CarInterfaceBase.get_std_params` (not in the repository
slice).  Only the fields that `get_params` may leave untouched are kept:
mass and wheelbase (untouched when the candidate matches no registry
entry), `minSteerSpeed` (untouched unless `mdpsBus == 1`) and the
lateral-tuning default (untouched when the control method is not 0, 1
or 2). -/
structure StdParams where
  mass : Rat
  wheelbase : Rat
  minSteerSpeed : Rat
  lateralTuning : LateralTuning
deriving DecidableEq

/-- The claim-relevant fields of the `CarParams` record built by
`get_params` (fields delegated to external scaling collaborators, such as
`rotationalInertia` and the tire stiffnesses, and the constant longitudinal
tables are not modelled; no claim mentions them). -/
structure CarParams where
  carName : String
  mass : Rat
  wheelbase : Rat
  centerToFront : Rat
  steerActuatorDelay : Rat
  steerRateCost : Rat
  steerLimitTimer : Rat
  lateralTuning : LateralTuning
  steerMaxBP : List Rat
  steerMaxV : List Rat
  enableBsm : Bool
  mdpsBus : Int
  sasBus : Int
  sccBus : Int
  fcaBus : Int
  bsmAvailable : Bool
  lfaAvailable : Bool
  lvrAvailable : Bool
  evgearAvailable : Bool
  emsAvailable : Bool
  minSteerSpeed : Rat
  openpilotLongitudinalControl : Bool
  enableCruise : Bool
  radarOffCan : Bool
  standStill : Bool
  vCruisekph : Rat
deriving DecidableEq

/-- Configuration-error kinds named by the spec (§7).  The source's
`get_params` contains no failure exit, so no value of this type is ever
produced by the embedding; the type records where such an error would
live. -/
inductive ConfigError where
  | unknownVehicle
  | unsupportedControlMethod
deriving DecidableEq

/- Modelled from the spec: the vehicle-identifier constants of
`selfdrive.car.hyundai.values.CAR` (not in the repository slice).  They are
distinct identifier strings; no claim depends on their concrete values,
only on which chain branch a candidate selects. -/
namespace CAR

def GENESIS : String := "GENESIS"

def GENESIS_G70 : String := "GENESIS_G70"

def GENESIS_G80 : String := "GENESIS_G80"

def GENESIS_G90 : String := "GENESIS_G90"

def SANTA_FE : String := "SANTA_FE"

def SONATA : String := "SONATA"

def SONATA_HEV : String := "SONATA_HEV"

def SONATA_LF : String := "SONATA_LF"

def SONATA_LF_TURBO : String := "SONATA_LF_TURBO"

def SONATA_LF_HEV : String := "SONATA_LF_HEV"

def PALISADE : String := "PALISADE"

def AVANTE : String := "AVANTE"

def I30 : String := "I30"

def KONA : String := "KONA"

def KONA_HEV : String := "KONA_HEV"

def KONA_EV : String := "KONA_EV"

def IONIQ_HEV : String := "IONIQ_HEV"

def IONIQ_EV : String := "IONIQ_EV"

def GRANDEUR_IG : String := "GRANDEUR_IG"

def GRANDEUR_IG_HEV : String := "GRANDEUR_IG_HEV"

def GRANDEUR_IG_FL : String := "GRANDEUR_IG_FL"

def GRANDEUR_IG_FL_HEV : String := "GRANDEUR_IG_FL_HEV"

def VELOSTER : String := "VELOSTER"

def NEXO : String := "NEXO"

def SORENTO : String := "SORENTO"

def K5 : String := "K5"

def K5_HEV : String := "K5_HEV"

def STINGER : String := "STINGER"

def K3 : String := "K3"

def CEED : String := "CEED"

def SPORTAGE : String := "SPORTAGE"

def NIRO_HEV : String := "NIRO_HEV"

def NIRO_EV : String := "NIRO_EV"

def K7 : String := "K7"

def K7_HEV : String := "K7_HEV"

def SELTOS : String := "SELTOS"

def SOUL_EV : String := "SOUL_EV"

end CAR

/-- `STD_CARGO_KG` from `selfdrive.car` (external module); its concrete
value is immaterial to every claim. -/
def STD_CARGO_KG : Rat := 136

/-- `Conversions.LB_TO_KG` from `selfdrive.config` (external module); its
concrete value is immaterial to every claim. -/
def LB_TO_KG : Rat := 453592 / 1000000

/-- The ordered candidate registry of the `if/elif` chain of `get_params`
(source lines 108–195): resolves a candidate to its mass and wheelbase,
leaving the standard defaults untouched when no branch matches (the chain
has no `else` and no failure exit). -/
def registryMassWheelbase (candidate : String) (std : StdParams) : Rat × Rat :=
  if candidate = CAR.GENESIS then (1900 + STD_CARGO_KG, 301/100)
  else if candidate = CAR.GENESIS_G70 then (1640 + STD_CARGO_KG, 284/100)
  else if candidate = CAR.GENESIS_G80 then (1855 + STD_CARGO_KG, 301/100)
  else if candidate = CAR.GENESIS_G90 then (2200, 315/100)
  else if candidate = CAR.SANTA_FE then (1694 + STD_CARGO_KG, 2765/1000)
  else if candidate = CAR.SONATA ∨ candidate = CAR.SONATA_HEV then (1513 + STD_CARGO_KG, 284/100)
  else if candidate = CAR.SONATA_LF then (4497 * LB_TO_KG, 2804/1000)
  else if candidate = CAR.SONATA_LF_TURBO then (1470 + STD_CARGO_KG, 2805/1000)
  else if candidate = CAR.SONATA_LF_HEV then (1595 + STD_CARGO_KG, 2805/1000)
  else if candidate = CAR.PALISADE then (1999 + STD_CARGO_KG, 290/100)
  else if candidate = CAR.AVANTE then (1245 + STD_CARGO_KG, 272/100)
  else if candidate = CAR.I30 then (1380 + STD_CARGO_KG, 265/100)
  else if candidate = CAR.KONA then (1275 + STD_CARGO_KG, 27/10)
  else if candidate = CAR.KONA_HEV ∨ candidate = CAR.KONA_EV then (1425 + STD_CARGO_KG, 26/10)
  else if candidate = CAR.IONIQ_HEV ∨ candidate = CAR.IONIQ_EV then (1490 + STD_CARGO_KG, 27/10)
  else if candidate = CAR.GRANDEUR_IG ∨ candidate = CAR.GRANDEUR_IG_HEV then (1675 + STD_CARGO_KG, 2845/1000)
  else if candidate = CAR.GRANDEUR_IG_FL ∨ candidate = CAR.GRANDEUR_IG_FL_HEV then (1725 + STD_CARGO_KG, 2885/1000)
  else if candidate = CAR.VELOSTER then (3558 * LB_TO_KG, 280/100)
  else if candidate = CAR.NEXO then (1885 + STD_CARGO_KG, 279/100)
  else if candidate = CAR.SORENTO then (1985 + STD_CARGO_KG, 278/100)
  else if candidate = CAR.K5 ∨ candidate = CAR.K5_HEV then (1600 + STD_CARGO_KG, 2805/1000)
  else if candidate = CAR.STINGER then (1825 + STD_CARGO_KG, 2906/1000)
  else if candidate = CAR.K3 then (1260 + STD_CARGO_KG, 270/100)
  else if candidate = CAR.CEED then (1350 + STD_CARGO_KG, 265/100)
  else if candidate = CAR.SPORTAGE then (1985 + STD_CARGO_KG, 278/100)
  else if candidate = CAR.NIRO_HEV ∨ candidate = CAR.NIRO_EV then (1737 + STD_CARGO_KG, 27/10)
  else if candidate = CAR.K7 ∨ candidate = CAR.K7_HEV then (1680 + STD_CARGO_KG, 2855/1000)
  else if candidate = CAR.SELTOS then (1310 + STD_CARGO_KG, 26/10)
  else if candidate = CAR.SOUL_EV then (1375 + STD_CARGO_KG, 26/10)
  else (std.mass, std.wheelbase)

/-- Every candidate identifier tested by some branch of the registry
chain, in source order. -/
def registryCandidates : List String :=
  [CAR.GENESIS, CAR.GENESIS_G70, CAR.GENESIS_G80, CAR.GENESIS_G90,
   CAR.SANTA_FE, CAR.SONATA, CAR.SONATA_HEV, CAR.SONATA_LF,
   CAR.SONATA_LF_TURBO, CAR.SONATA_LF_HEV, CAR.PALISADE, CAR.AVANTE,
   CAR.I30, CAR.KONA, CAR.KONA_HEV, CAR.KONA_EV, CAR.IONIQ_HEV,
   CAR.IONIQ_EV, CAR.GRANDEUR_IG, CAR.GRANDEUR_IG_HEV, CAR.GRANDEUR_IG_FL,
   CAR.GRANDEUR_IG_FL_HEV, CAR.VELOSTER, CAR.NEXO, CAR.SORENTO, CAR.K5,
   CAR.K5_HEV, CAR.STINGER, CAR.K3, CAR.CEED, CAR.SPORTAGE, CAR.NIRO_HEV,
   CAR.NIRO_EV, CAR.K7, CAR.K7_HEV, CAR.SELTOS, CAR.SOUL_EV]

/-- The lateral-control selection of `get_params` (source lines 53–103):
method 0 builds the PID variant, 1 the INDI variant, 2 the LQR variant;
any other method leaves the standard default tuning untouched (the chain
has no `else` and no failure exit). -/
def selectLateralTuning (method : Int) (shane_feed_forward : Bool)
    (PidKp PidKi PidKd PidKf InnerLoopGain OuterLoopGain TimeConstant
     ActuatorEffectiveness Scale LqrKi DcGain : Rat)
    (std : LateralTuning) : LateralTuning :=
  if method = 0 then
    LateralTuning.pid [0, 9] [1/10, PidKp] [0, 9] [1/100, PidKi] [0] [PidKd]
      PidKf (if shane_feed_forward then true else false)
  else if method = 1 then
    LateralTuning.indi [0, 9] [3, InnerLoopGain] [0, 9] [3/2, OuterLoopGain]
      [0, 9] [2, TimeConstant] [0, 9] [3, ActuatorEffectiveness]
  else if method = 2 then
    LateralTuning.lqr Scale LqrKi
      [0, 1, -22619643/100000000, 121822268/100000000]
      [-192006585/1000000000000, 395603032/10000000000000]
      [1, 0] [-110, 451] [33/100, 318/1000] DcGain
  else std

/-- The `CarParams` record built by `CarInterface.get_params` (source
lines 24–267), translated field by field: per-key scale factors on the
store values, the registry chain, lateral-tuning selection, the bus-
topology expressions of lines 240–248 (`sccBus`'s dead `and False` branch
and `emsAvailable`'s literal `608` truthiness kept as written), the
`mdpsBus == 1 ⇒ minSteerSpeed = 0` override of lines 252–253, and the
unconditional policy overrides of lines 258–266. -/
def build_params (candidate : String) (fingerprint : Fingerprint)
    (params : ParamsStore) (std : StdParams) : CarParams :=
  let PidKp := params.pidKpRaw * (1/100)
  let PidKi := params.pidKiRaw * (1/1000)
  let PidKd := params.pidKdRaw * (1/100)
  let PidKf := params.pidKfRaw * (1/100000)
  let InnerLoopGain := params.innerLoopGainRaw * (1/10)
  let OuterLoopGain := params.outerLoopGainRaw * (1/10)
  let TimeConstant := params.timeConstantRaw * (1/10)
  let ActuatorEffectiveness := params.actuatorEffectivenessRaw * (1/10)
  let Scale := params.scaleRaw * 1
  let LqrKi := params.lqrKiRaw * (1/1000)
  let DcGain := params.dcGainRaw * (1/10000)
  let SteerMaxV := params.steerMaxvRaw * (1/10)
  let lat_control_method := params.lateralControlMethod
  let shane_feed_forward := params.shaneFeedForward
  let mw := registryMassWheelbase candidate std
  let mdpsBus : Int := if params.mdpsHarness then 1 else 0
  let sasBus : Int := if 688 ∈ fingerprint.bus0 ∨ ¬ mdpsBus = 1 then 0 else 1
  let sccBus0 : Int :=
    if 1057 ∈ fingerprint.bus2 ∧ False then 2
    else if 1057 ∈ fingerprint.bus0 then 0 else -1
  let fcaBus0 : Int :=
    if 909 ∈ fingerprint.bus0 then 0
    else if 909 ∈ fingerprint.bus2 then 2 else -1
  { carName := "hyundai"
    mass := mw.1
    wheelbase := mw.2
    centerToFront := mw.2 * (4/10)
    steerActuatorDelay := params.steerActuatorDelayRaw * (1/100)
    steerRateCost := params.steerRateCostRaw * (1/100)
    steerLimitTimer := params.steerLimitTimerRaw * (1/100)
    lateralTuning :=
      selectLateralTuning lat_control_method shane_feed_forward
        PidKp PidKi PidKd PidKf InnerLoopGain OuterLoopGain TimeConstant
        ActuatorEffectiveness Scale LqrKi DcGain std.lateralTuning
    steerMaxBP := [0]
    steerMaxV := [SteerMaxV]
    enableBsm := 0x58b ∈ fingerprint.bus0
    mdpsBus := mdpsBus
    sasBus := sasBus
    sccBus := -1
    fcaBus := if fcaBus0 = 0 then -1 else fcaBus0
    bsmAvailable := if 1419 ∈ fingerprint.bus0 then true else false
    lfaAvailable := if 1157 ∈ fingerprint.bus2 then true else false
    lvrAvailable := if 871 ∈ fingerprint.bus0 then true else false
    evgearAvailable := if 882 ∈ fingerprint.bus0 then true else false
    emsAvailable := if (608 : Nat) ≠ 0 ∧ 809 ∈ fingerprint.bus0 then true else false
    minSteerSpeed := if mdpsBus = 1 then 0 else std.minSteerSpeed
    openpilotLongitudinalControl := true
    enableCruise := false
    radarOffCan := true
    standStill := false
    vCruisekph := 0 }

/-- `CarInterface.get_params`: the source has no `raise` statement on any
path, so the result is always `Except.ok`; the `Except` layer is where a
`ConfigError` would surface if the code had one. -/
def get_params (candidate : String) (fingerprint : Fingerprint)
    (params : ParamsStore) (std : StdParams) : Except ConfigError CarParams :=
  Except.ok (build_params candidate fingerprint params std)

/-- C2: for every candidate vehicle identifier and every fingerprint (and
every parameter-store contents and standard defaults), the `CarParams`
record returned by `get_params` has `sccBus = -1`: line 242's id-based
detection is dead (`and False`) and line 260 overwrites the field with -1
unconditionally. -/
theorem sccBus_always_neg_one (candidate : String) (fingerprint : Fingerprint)
    (params : ParamsStore) (std : StdParams) :
    (get_params candidate fingerprint params std).toOption.map CarParams.sccBus
      = some (-1) := rfl

/- Modelled from the spec: the raw cruise-button codes of
`selfdrive.car.hyundai.values.Buttons` (not in the repository slice) —
distinct nonzero codes; the claims depend only on the enum table mapping
of §4.4, not on the concrete values. -/
namespace Buttons

def RES_ACCEL : Nat := 1

def SET_DECEL : Nat := 2

def GAP_DIST : Nat := 3

def CANCEL : Nat := 4

end Buttons

/-- `car.CarState.ButtonEvent.Type` values used by the interface. -/
inductive ButtonType where
  | accelCruise
  | decelCruise
  | gapAdjustCruise
  | cancel
  | altButton3
  | unknown
deriving DecidableEq

/-- A debounced button event (`car.CarState.ButtonEvent`). -/
structure ButtonEvent where
  type : ButtonType
  pressed : Bool
deriving DecidableEq

/-- The discrete system events this interface can add to the per-cycle
event set (`car.CarEvent.EventName` members referenced in `update`). -/
inductive EventName where
  | parkBrake
  | brakeUnavailable
  | laneChangeManual
  | emgButtonManual
  | modeChangeOpenpilot
  | modeChangeDistcurv
  | modeChangeDistance
  | modeChangeOneway
  | modeChangeMaponly
  | buttonEnable
  | pcmEnable
  | buttonCancel
  | pcmDisable
deriving DecidableEq

/-- Adapter instance state surviving across `update` cycles: the mutable
`CarParams` fields (`enableCruise`, `standStill`, `vCruisekph` — the rest
of `CP` is read-only after construction), the low-speed-alert hysteresis
latch, and the last-stored button-event list (`self.buttonEvents`). -/
structure AdapterState where
  CP : CarParams
  low_speed_alert : Bool
  buttonEvents : List ButtonEvent
deriving DecidableEq

/-- Per-cycle inputs to `update`, decoded by the external bus parsers and
car-state/car-controller collaborators: fields of `ret = self.CS.update(…)`
(`vEgo`, `brakePressed`, `standstill`), `self.CC` signals, and the raw
button codes with their previous-cycle values held by `self.CS`.  Integer
timers keep their numeric type; Python truthiness is `≠ 0`. -/
structure CycleInputs where
  vEgo : Rat
  brakePressed : Bool
  standstill : Bool
  ccEnabled : Bool
  usestockscc : Bool
  parkBrake : Bool
  brakeUnavailable : Bool
  lanechange_manual_timer : Nat
  emergency_manual_timer : Nat
  mode_change_timer : Nat
  modeSel : Int
  acc_standstill_timer : Nat
  setspeed : Rat
  clu11_speed : Rat
  cruise_buttons : Nat
  prev_cruise_buttons : Nat
  cruise_main_button : Nat
  prev_cruise_main_button : Nat
deriving DecidableEq

/-- Per-cycle output of `update`: the button-event list and event set
placed on the returned canonical state (`ret.buttonEvents`,
`ret.events`). -/
structure UpdateOut where
  buttonEvents : List ButtonEvent
  events : List EventName
deriving DecidableEq

/-- The enum table of the button-edge branch (source lines 320–329). -/
def buttonTypeOf (code : Nat) : ButtonType :=
  if code = Buttons.RES_ACCEL then ButtonType.accelCruise
  else if code = Buttons.SET_DECEL then ButtonType.decelCruise
  else if code = Buttons.GAP_DIST then ButtonType.gapAdjustCruise
  else if code = Buttons.CANCEL then ButtonType.cancel
  else ButtonType.unknown

/-- The mode-change `if/elif` chain (source lines 298–307): the timer must
be truthy and the branch is selected by the single-valued mode selector,
so the chain contributes at most one event. -/
def modeChangeEvents (mode_change_timer : Nat) (modeSel : Int) : List EventName :=
  if mode_change_timer ≠ 0 ∧ modeSel = 0 then [EventName.modeChangeOpenpilot]
  else if mode_change_timer ≠ 0 ∧ modeSel = 1 then [EventName.modeChangeDistcurv]
  else if mode_change_timer ≠ 0 ∧ modeSel = 2 then [EventName.modeChangeDistance]
  else if mode_change_timer ≠ 0 ∧ modeSel = 3 then [EventName.modeChangeOneway]
  else if mode_change_timer ≠ 0 ∧ modeSel = 4 then [EventName.modeChangeMaponly]
  else []

/-- The three independent enable/disable rules applied to one stored
button event (the body of the `for b in self.buttonEvents` loop, source
lines 344–355). -/
def eventsForButton (inp : CycleInputs) (b : ButtonEvent) : List EventName :=
  (if b.type = ButtonType.decelCruise ∧ b.pressed = true
      ∧ (¬ inp.brakePressed = true ∨ inp.standstill = true)
   then [EventName.buttonEnable, EventName.pcmEnable] else [])
  ++ (if b.type = ButtonType.accelCruise ∧ b.pressed = true
      ∧ (inp.setspeed > inp.clu11_speed - 2 ∨ inp.standstill = true ∨ inp.usestockscc = true)
   then [EventName.buttonEnable, EventName.pcmEnable] else [])
  ++ (if b.type = ButtonType.cancel ∧ b.pressed = true
   then [EventName.buttonCancel, EventName.pcmDisable] else [])

/-- The `for b in self.buttonEvents` loop, accumulating the per-button
events in list order. -/
def eventsForButtons (inp : CycleInputs) : List ButtonEvent → List EventName
  | [] => []
  | b :: bs => eventsForButton inp b ++ eventsForButtons inp bs

/-- The guarded enable/disable derivation (source line 343): the loop body
runs only when the policy `enableCruise` flag is false. -/
def buttonBranch (enableCruise : Bool) (inp : CycleInputs)
    (bes : List ButtonEvent) : List EventName :=
  if enableCruise then [] else eventsForButtons inp bes

/-- The independent event additions of source lines 290–307, in source
order: park-brake, brake-unavailable, manual-lane-change, emergency-button
and the mode-change chain, appended to the external common events `ce`. -/
def baseEvents (inp : CycleInputs) (ce : List EventName) : List EventName :=
  ce
  ++ (if inp.parkBrake = true ∧ ¬ inp.usestockscc = true
      then [EventName.parkBrake] else [])
  ++ (if inp.brakeUnavailable = true ∧ ¬ inp.usestockscc = true
      then [EventName.brakeUnavailable] else [])
  ++ (if inp.lanechange_manual_timer ≠ 0 ∧ inp.vEgo > 3/10
      then [EventName.laneChangeManual] else [])
  ++ (if inp.emergency_manual_timer ≠ 0
      then [EventName.emgButtonManual] else [])
  ++ modeChangeEvents inp.mode_change_timer inp.modeSel

/-- `CarInterface.update` (source lines 269–362), given the decoded
per-cycle inputs and the event list `ce` produced by the external
`create_common_events` collaborator.  In source order: the hysteresis
clear (282–283), the `sccBus == 2` cruise-flag synchronization (285–286),
the independent event additions (290–307), the standstill flag and
set-speed mirror (308–313), the lossy button-edge detection (315–340: a
cruise-button edge replaces the stored list, a main-button edge appends
to the same cycle's local list and stores it), and the guarded
enable/disable loop (343–355). -/
def update (st : AdapterState) (inp : CycleInputs) (ce : List EventName) :
    AdapterState × UpdateOut :=
  let low_speed_alert :=
    if inp.vEgo > st.CP.minSteerSpeed + 84/100 ∨ ¬ inp.ccEnabled = true
    then false else st.low_speed_alert
  let enableCruise :=
    if st.CP.sccBus = 2 then inp.usestockscc else st.CP.enableCruise
  let standStill := decide (inp.acc_standstill_timer ≥ 200)
  let cruiseEdge := inp.cruise_buttons ≠ inp.prev_cruise_buttons
  let mainEdge := inp.cruise_main_button ≠ inp.prev_cruise_main_button
  let localList :=
    (if cruiseEdge
     then [{ type := buttonTypeOf inp.cruise_buttons,
             pressed := decide (inp.cruise_buttons ≠ 0) : ButtonEvent }]
     else [])
    ++ (if mainEdge
        then [{ type := ButtonType.altButton3,
                pressed := decide (inp.cruise_main_button ≠ 0) : ButtonEvent }]
        else [])
  let storedButtonEvents :=
    if cruiseEdge ∨ mainEdge then localList else st.buttonEvents
  let events2 := baseEvents inp ce ++ buttonBranch enableCruise inp storedButtonEvents
  ({ CP := { st.CP with
              enableCruise := enableCruise,
              standStill := standStill,
              vCruisekph := inp.setspeed },
     low_speed_alert := low_speed_alert,
     buttonEvents := storedButtonEvents },
   { buttonEvents := storedButtonEvents, events := events2 })

/-- A sequence of `update` cycles from a starting adapter state, each step
supplying that cycle's inputs and common-event list. -/
def runUpdates (st : AdapterState) (steps : List (CycleInputs × List EventName)) :
    AdapterState :=
  steps.foldl (fun s p => (update s p.1 p.2).1) st

/-- An empty fingerprint fixture. -/
def fp0 : Fingerprint := ⟨[], [], []⟩

/-- A parameter-store fixture: zero scalars, PID method, no harness. -/
def ps0 : ParamsStore :=
  ⟨0, 0, 0, 0, 0, 0, 0, 0, 0, 0, 0, 0, 0, 0, 0, 0, 0, false, false⟩

/-- The store fixture with the MDPS harness flag set. -/
def psHarness : ParamsStore := { ps0 with mdpsHarness := true }

/-- The store fixture with an out-of-range lateral-control method. -/
def psMethod3 : ParamsStore := { ps0 with lateralControlMethod := 3 }

/-- A standard-defaults fixture with nonzero mass, wheelbase and
minimum steering speed and a recognisable default tuning. -/
def std0 : StdParams := ⟨1000, 3, 10, LateralTuning.pid [] [] [] [] [] [] 0 false⟩

/-- C5: whenever the MDPS harness-present flag is true, the returned
`CarParams` has `mdpsBus = 1` (line 240) and `minSteerSpeed = 0`
(lines 252–253), for every candidate and fingerprint. -/
theorem mdpsHarness_gives_bus1 (candidate : String) (fp : Fingerprint)
    (ps : ParamsStore) (std : StdParams) (h : ps.mdpsHarness = true) :
    (get_params candidate fp ps std).toOption.map CarParams.mdpsBus = some 1 ∧
    (get_params candidate fp ps std).toOption.map CarParams.minSteerSpeed = some 0 := by
  constructor <;> simp [get_params, build_params, Except.toOption, h]

/-- Witness for C5 at a concrete store with the harness flag set. -/
theorem mdpsHarness_gives_bus1_witness :
    (get_params CAR.GENESIS fp0 psHarness std0).toOption.map CarParams.mdpsBus = some 1 ∧
    (get_params CAR.GENESIS fp0 psHarness std0).toOption.map CarParams.minSteerSpeed = some 0 :=
  mdpsHarness_gives_bus1 CAR.GENESIS fp0 psHarness std0 rfl

/-- C6: the returned `fcaBus` is 2 exactly when id 909 is observed on
bus 2 and not on bus 0, and -1 otherwise (line 243 chain plus the
lines 263–264 override of 0 to -1); in particular it is never 0. -/
theorem fcaBus_resolution (candidate : String) (fp : Fingerprint)
    (ps : ParamsStore) (std : StdParams) :
    (get_params candidate fp ps std).toOption.map CarParams.fcaBus
      = some (if 909 ∈ fp.bus2 ∧ 909 ∉ fp.bus0 then 2 else -1) ∧
    (get_params candidate fp ps std).toOption.map CarParams.fcaBus ≠ some 0 := by
  by_cases h0 : 909 ∈ fp.bus0 <;> by_cases h2 : 909 ∈ fp.bus2 <;>
    simp [get_params, build_params, Except.toOption, h0, h2]

/-- C10: the returned `emsAvailable` flag is true exactly when id 809 is
observed on bus 0; the literal `608` in line 248's `608 and 809 in
fingerprint[0]` is a truthy constant, so id 608 has no effect. -/
theorem emsAvailable_ignores_608 (candidate : String) (fp : Fingerprint)
    (ps : ParamsStore) (std : StdParams) :
    (get_params candidate fp ps std).toOption.map CarParams.emsAvailable
      = some (decide (809 ∈ fp.bus0)) := by
  by_cases h : 809 ∈ fp.bus0 <;> simp [get_params, build_params, Except.toOption, h]

/-- When a candidate matches no branch of the registry chain, the chain
falls through to the standard defaults. -/
theorem registryMassWheelbase_unknown (c : String) (std : StdParams)
    (h : c ∉ registryCandidates) :
    registryMassWheelbase c std = (std.mass, std.wheelbase) := by
  simp only [registryCandidates, List.mem_cons, List.not_mem_nil, or_false,
    not_or] at h
  obtain ⟨h1, h2, h3, h4, h5, h6, h7, h8, h9, h10, h11, h12, h13, h14, h15,
    h16, h17, h18, h19, h20, h21, h22, h23, h24, h25, h26, h27, h28, h29,
    h30, h31, h32, h33, h34, h35, h36, h37⟩ := h
  simp [registryMassWheelbase, h1, h2, h3, h4, h5, h6, h7, h8, h9, h10, h11,
    h12, h13, h14, h15, h16, h17, h18, h19, h20, h21, h22, h23, h24, h25,
    h26, h27, h28, h29, h30, h31, h32, h33, h34, h35, h36, h37]

/-- Counterexample to C3 as stated: the candidate `"OPEL_CORSA"` matches
no registry entry, yet `get_params` succeeds (the chain of lines 108–195
has no failure exit) instead of failing with an `UnknownVehicle`
configuration error. -/
theorem unknown_candidate_no_error :
    "OPEL_CORSA" ∉ registryCandidates ∧
    (get_params "OPEL_CORSA" fp0 ps0 std0).isOk = true := ⟨by decide, rfl⟩

/-- C3 amended: for every candidate matching no registry entry,
`get_params` returns a `CarParams` record whose mass and wheelbase are the
untouched standard defaults, rather than failing. -/
theorem unknown_candidate_returns_defaults (c : String) (fp : Fingerprint)
    (ps : ParamsStore) (std : StdParams) (h : c ∉ registryCandidates) :
    (get_params c fp ps std).isOk = true ∧
    (get_params c fp ps std).toOption.map CarParams.mass = some std.mass ∧
    (get_params c fp ps std).toOption.map CarParams.wheelbase = some std.wheelbase := by
  refine ⟨rfl, ?_, ?_⟩ <;>
    simp [get_params, build_params, Except.toOption, registryMassWheelbase_unknown c std h]

/-- Witness for the amended C3 at the concrete unmatched candidate. -/
theorem unknown_candidate_returns_defaults_witness :
    (get_params "OPEL_CORSA" fp0 ps0 std0).isOk = true ∧
    (get_params "OPEL_CORSA" fp0 ps0 std0).toOption.map CarParams.mass = some std0.mass ∧
    (get_params "OPEL_CORSA" fp0 ps0 std0).toOption.map CarParams.wheelbase = some std0.wheelbase :=
  unknown_candidate_returns_defaults "OPEL_CORSA" fp0 ps0 std0 (by decide)

/-- Counterexample to C4 as stated: with lateral-control method 3 the
construction succeeds (the method chain of lines 55–103 has no `else` and
no failure exit) instead of failing with an `UnsupportedControlMethod`
configuration error. -/
theorem unsupported_method_no_error :
    ((3 : Int) ∉ ([0, 1, 2] : List Int)) ∧ psMethod3.lateralControlMethod = 3 ∧
    (get_params CAR.GENESIS fp0 psMethod3 std0).isOk = true := ⟨by decide, rfl, rfl⟩

/-- C4 amended: for every lateral-control method outside {0, 1, 2},
`get_params` returns normally with the lateral tuning left at the standard
default, rather than failing at construction time. -/
theorem unsupported_method_keeps_default_tuning (c : String) (fp : Fingerprint)
    (ps : ParamsStore) (std : StdParams)
    (h : ps.lateralControlMethod ∉ ([0, 1, 2] : List Int)) :
    (get_params c fp ps std).isOk = true ∧
    (get_params c fp ps std).toOption.map CarParams.lateralTuning
      = some std.lateralTuning := by
  simp only [List.mem_cons, List.not_mem_nil, or_false, not_or] at h
  refine ⟨rfl, ?_⟩
  simp [get_params, build_params, Except.toOption, selectLateralTuning, h.1, h.2.1, h.2.2]

/-- Witness for the amended C4 at the concrete method 3. -/
theorem unsupported_method_keeps_default_tuning_witness :
    (get_params CAR.GENESIS fp0 psMethod3 std0).isOk = true ∧
    (get_params CAR.GENESIS fp0 psMethod3 std0).toOption.map CarParams.lateralTuning
      = some std0.lateralTuning :=
  unsupported_method_keeps_default_tuning CAR.GENESIS fp0 psMethod3 std0 (by decide)

/-- Recognizer for the five mutually exclusive mode-change events. -/
def isModeChangeEvent : EventName → Bool
  | EventName.modeChangeOpenpilot => true
  | EventName.modeChangeDistcurv => true
  | EventName.modeChangeDistance => true
  | EventName.modeChangeOneway => true
  | EventName.modeChangeMaponly => true
  | _ => false

/-- The per-cycle event set decomposes into the base additions followed by
the guarded enable/disable contribution over the stored button list. -/
theorem update_events_eq (st : AdapterState) (inp : CycleInputs)
    (ce : List EventName) :
    (update st inp ce).2.events
      = baseEvents inp ce
        ++ buttonBranch (if st.CP.sccBus = 2 then inp.usestockscc else st.CP.enableCruise)
            inp ((update st inp ce).2.buttonEvents) := rfl

/-- The mode-change chain yields only mode-change events. -/
theorem modeChangeEvents_filter (t : Nat) (m : Int) :
    (modeChangeEvents t m).filter isModeChangeEvent = modeChangeEvents t m := by
  unfold modeChangeEvents
  repeat' split
  all_goals rfl

/-- The mode-change chain contributes at most one event per cycle. -/
theorem modeChangeEvents_length (t : Nat) (m : Int) :
    (modeChangeEvents t m).length ≤ 1 := by
  unfold modeChangeEvents
  repeat' split
  all_goals simp

/-- When the timer is truthy and the selector is 2, the chain contributes
exactly the distance-mode event. -/
theorem modeChangeEvents_sel2 (t : Nat) (m : Int) (ht : t ≠ 0) (hm : m = 2) :
    modeChangeEvents t m = [EventName.modeChangeDistance] := by
  subst hm
  simp [modeChangeEvents, ht]

/-- The enable/disable loop contributes no mode-change event. -/
theorem eventsForButtons_no_modeChange (inp : CycleInputs)
    (bes : List ButtonEvent) :
    (eventsForButtons inp bes).filter isModeChangeEvent = [] := by
  induction bes with
  | nil => rfl
  | cons b bs ih =>
    simp only [eventsForButtons, List.filter_append, ih, List.append_nil,
      eventsForButton]
    split <;> split <;> split <;> rfl

/-- The guarded enable/disable branch contributes no mode-change event. -/
theorem buttonBranch_no_modeChange (e : Bool) (inp : CycleInputs)
    (bes : List ButtonEvent) :
    (buttonBranch e inp bes).filter isModeChangeEvent = [] := by
  unfold buttonBranch
  split
  · rfl
  · exact eventsForButtons_no_modeChange inp bes

/-- Filtering the base additions for mode-change events leaves exactly the
mode-change chain's contribution, provided the external common events
contain none. -/
theorem baseEvents_filter (inp : CycleInputs) (ce : List EventName)
    (hce : ce.filter isModeChangeEvent = []) :
    (baseEvents inp ce).filter isModeChangeEvent
      = modeChangeEvents inp.mode_change_timer inp.modeSel := by
  simp only [baseEvents, List.filter_append, hce, modeChangeEvents_filter,
    List.nil_append]
  repeat' split
  all_goals rfl

/-- A pressed cancel event anywhere in the iterated button list puts both
disable events into the loop's contribution. -/
theorem eventsForButtons_cancel (inp : CycleInputs) (bes : List ButtonEvent)
    (b : ButtonEvent) (hb : b ∈ bes) (htype : b.type = ButtonType.cancel)
    (hp : b.pressed = true) :
    EventName.buttonCancel ∈ eventsForButtons inp bes ∧
    EventName.pcmDisable ∈ eventsForButtons inp bes := by
  induction bes with
  | nil => cases hb
  | cons x xs ih =>
    rcases List.mem_cons.mp hb with h | h
    · subst h
      constructor <;>
        simp [eventsForButtons, eventsForButton, htype, hp]
    · obtain ⟨c1, c2⟩ := ih h
      exact ⟨List.mem_append_right _ c1, List.mem_append_right _ c2⟩

/-- C1: in every per-cycle update whose stored button-event list contains
an event with type `cancel` and `pressed = true`, while the policy
`enableCruise` flag is false (the flag value the line-343 guard consults
this cycle, i.e. after the `sccBus == 2` resynchronization), the returned
event set includes both `buttonCancel` and `pcmDisable`, regardless of
the current speed, brake or standstill state. -/
theorem cancel_button_emits_disable (st : AdapterState) (inp : CycleInputs)
    (ce : List EventName) (b : ButtonEvent)
    (hmem : b ∈ (update st inp ce).2.buttonEvents)
    (htype : b.type = ButtonType.cancel) (hp : b.pressed = true)
    (heff : (update st inp ce).1.CP.enableCruise = false) :
    EventName.buttonCancel ∈ (update st inp ce).2.events ∧
    EventName.pcmDisable ∈ (update st inp ce).2.events := by
  obtain ⟨c1, c2⟩ :=
    eventsForButtons_cancel inp ((update st inp ce).2.buttonEvents) b hmem htype hp
  have hec : (if st.CP.sccBus = 2 then inp.usestockscc else st.CP.enableCruise) = false :=
    heff
  rw [update_events_eq, hec]
  exact ⟨List.mem_append_right _ c1, List.mem_append_right _ c2⟩

/-- A concrete `CarParams` fixture, as built for a known candidate. -/
def cpFix : CarParams := build_params CAR.GENESIS fp0 ps0 std0

/-- An adapter state whose stored button list holds a pressed cancel
event. -/
def stCancel : AdapterState := ⟨cpFix, false, [⟨ButtonType.cancel, true⟩]⟩

/-- A quiescent cycle-input fixture: zero speed, no edges, no timers. -/
def inp0 : CycleInputs :=
  ⟨0, false, false, true, false, false, false, 0, 0, 0, 0, 0, 0, 0, 0, 0, 0, 0⟩

/-- Witness for C1: a quiescent cycle over a stored pressed-cancel event. -/
theorem cancel_button_emits_disable_witness :
    EventName.buttonCancel ∈ (update stCancel inp0 []).2.events ∧
    EventName.pcmDisable ∈ (update stCancel inp0 []).2.events :=
  cancel_button_emits_disable stCancel inp0 [] ⟨ButtonType.cancel, true⟩
    (by decide) rfl rfl (by decide)

/-- C7: at most one of the five mode-change events is added to the
per-cycle event set (given that the external common events contain none),
and when the mode-change timer is truthy and the mode selector equals 2,
the set's mode-change content is exactly `modeChangeDistance`. -/
theorem modeChange_mutual_exclusion (st : AdapterState) (inp : CycleInputs)
    (ce : List EventName) (hce : ce.filter isModeChangeEvent = []) :
    (((update st inp ce).2.events).filter isModeChangeEvent).length ≤ 1 ∧
    (inp.mode_change_timer ≠ 0 → inp.modeSel = 2 →
      ((update st inp ce).2.events).filter isModeChangeEvent
        = [EventName.modeChangeDistance]) := by
  have hfe : ((update st inp ce).2.events).filter isModeChangeEvent
      = modeChangeEvents inp.mode_change_timer inp.modeSel := by
    rw [update_events_eq, List.filter_append, baseEvents_filter inp ce hce,
      buttonBranch_no_modeChange, List.append_nil]
  refine ⟨?_, ?_⟩
  · rw [hfe]
    exact modeChangeEvents_length _ _
  · intro ht hm
    rw [hfe]
    exact modeChangeEvents_sel2 _ _ ht hm

/-- A simple adapter state with an empty stored button list. -/
def st0 : AdapterState := ⟨cpFix, false, []⟩

/-- A cycle-input fixture with the mode-change timer active and the mode
selector at 2. -/
def inpMode2 : CycleInputs := { inp0 with mode_change_timer := 1, modeSel := 2 }

/-- Witness for C7: the active-timer, selector-2 cycle produces exactly the
distance mode-change event. -/
theorem modeChange_mutual_exclusion_witness :
    (((update st0 inpMode2 []).2.events).filter isModeChangeEvent).length ≤ 1 ∧
    ((update st0 inpMode2 []).2.events).filter isModeChangeEvent
      = [EventName.modeChangeDistance] :=
  ⟨(modeChange_mutual_exclusion st0 inpMode2 [] rfl).1,
   (modeChange_mutual_exclusion st0 inpMode2 [] rfl).2 (by decide) rfl⟩

/-- Once the latch is clear it stays clear across any run of cycles. -/
theorem runUpdates_low_speed_alert (steps : List (CycleInputs × List EventName)) :
    ∀ st : AdapterState, st.low_speed_alert = false →
      (runUpdates st steps).low_speed_alert = false := by
  induction steps with
  | nil => intro st h; exact h
  | cons p ps ih =>
    intro st h
    exact ih _ (by simp [update, h])

/-- C8: the low-speed-alert latch is one-way within `update`: a cycle with
speed above `minSteerSpeed + 0.84` (or with the controller disabled)
clears it, a cycle starting with the latch clear leaves it clear no matter
the inputs, and hence it stays clear across every subsequent run of
cycles — no path in `update` sets it. -/
theorem low_speed_alert_one_way (st : AdapterState) (inp : CycleInputs)
    (ce : List EventName) (steps : List (CycleInputs × List EventName)) :
    ((inp.vEgo > st.CP.minSteerSpeed + 84/100 ∨ inp.ccEnabled = false) →
      (update st inp ce).1.low_speed_alert = false) ∧
    (st.low_speed_alert = false →
      (update st inp ce).1.low_speed_alert = false) ∧
    (st.low_speed_alert = false →
      (runUpdates st steps).low_speed_alert = false) := by
  refine ⟨?_, ?_, ?_⟩
  · intro h
    have h' : inp.vEgo > st.CP.minSteerSpeed + 84/100 ∨ ¬ inp.ccEnabled = true := by
      rcases h with h | h
      · exact Or.inl h
      · exact Or.inr (by simp [h])
    show (if inp.vEgo > st.CP.minSteerSpeed + 84/100 ∨ ¬ inp.ccEnabled = true
          then false else st.low_speed_alert) = false
    rw [if_pos h']
  · intro h
    simp [update, h]
  · intro h
    exact runUpdates_low_speed_alert steps st h

/-- An adapter state with the low-speed-alert latch set. -/
def stAlert : AdapterState := ⟨cpFix, true, []⟩

/-- A cycle-input fixture travelling well above the alert threshold. -/
def inpFast : CycleInputs := { inp0 with vEgo := 100 }

/-- Witness for C8: one fast cycle clears the latch from the set state. -/
theorem low_speed_alert_one_way_witness :
    (update stAlert inpFast []).1.low_speed_alert = false :=
  (low_speed_alert_one_way stAlert inpFast [] []).1
    (Or.inl (by norm_num [inpFast, inp0, stAlert, cpFix, build_params, ps0, std0]))

/-- Update preserves a false `enableCruise` whenever `sccBus` is -1, and
never changes `sccBus`. -/
theorem runUpdates_cruise_invariant (steps : List (CycleInputs × List EventName)) :
    ∀ st : AdapterState, st.CP.enableCruise = false → st.CP.sccBus = -1 →
      (runUpdates st steps).CP.enableCruise = false ∧
      (runUpdates st steps).CP.sccBus = -1 := by
  induction steps with
  | nil => intro st h1 h2; exact ⟨h1, h2⟩
  | cons p ps ih =>
    intro st h1 h2
    have hne : ¬ st.CP.sccBus = 2 := by rw [h2]; decide
    exact ih _ (by simp [update, hne, h1]) (by simp [update, h2])

/-- C9: after construction via `get_params` the adapter's `enableCruise`
flag is false with `sccBus = -1`, and both persist through every sequence
of `update` calls — the per-cycle resynchronization is guarded by
`sccBus == 2`, which never holds — so the button enable/disable branch is
the active one (not the skipped one) on every cycle. -/
theorem enableCruise_stays_false (c : String) (fp : Fingerprint)
    (ps : ParamsStore) (std : StdParams) (CP : CarParams)
    (h : get_params c fp ps std = Except.ok CP) (lsa : Bool)
    (bes : List ButtonEvent) (steps : List (CycleInputs × List EventName)) :
    (runUpdates ⟨CP, lsa, bes⟩ steps).CP.enableCruise = false ∧
    (runUpdates ⟨CP, lsa, bes⟩ steps).CP.sccBus = -1 ∧
    ∀ (inp : CycleInputs) (l : List ButtonEvent),
      buttonBranch (runUpdates ⟨CP, lsa, bes⟩ steps).CP.enableCruise inp l
        = eventsForButtons inp l := by
  have h' : build_params c fp ps std = CP := by injection h
  have h1 : CP.enableCruise = false := by rw [← h']; rfl
  have h2 : CP.sccBus = -1 := by rw [← h']; rfl
  obtain ⟨i1, i2⟩ := runUpdates_cruise_invariant steps ⟨CP, lsa, bes⟩ h1 h2
  refine ⟨i1, i2, fun inp l => ?_⟩
  rw [i1]
  rfl

/-- Witness for C9: a two-cycle run from a freshly constructed adapter. -/
theorem enableCruise_stays_false_witness :
    (runUpdates ⟨cpFix, false, []⟩ [(inp0, []), (inpFast, [])]).CP.enableCruise = false :=
  (enableCruise_stays_false CAR.GENESIS fp0 ps0 std0 cpFix rfl false []
    [(inp0, []), (inpFast, [])]).1
